import Mathlib

/-!
Verification development for the `cncr_wdg` watchdog
(`src/cncr_wdg/_watchdog.py`).

The watchdog couples three mechanisms: a shutdown trigger
(`Watchdog.__handle_shutdown`) shared by the signal-delivery context and the
monitor-loop context, a periodic monitor loop (`Watchdog.__monitor`) polling
health probes, and teardown (`Watchdog.join`).

The embedding is in two parts:

* a sequential embedding of every method as a pure state transformer
  `WState → WState × List Event`, where `Event` records the externally
  observable effects (probe invocations, callable invocations, log lines,
  blocking waits, handler installations) in program order;

* a micro-step interleaving model (`cstep` / `runSched`) of
  `Watchdog.__handle_shutdown` alone, at CPython bytecode granularity, used to
  examine the claimed atomicity of the trigger when the signal-delivery
  context and the monitor-loop context race.
-/

namespace CncrWdg

/-- POSIX signal number of `signal.SIGABRT`, the internal sentinel cause the
monitor loop uses to report a failed probe. -/
def SIGABRT : Nat := 6

/-- POSIX signal number of `signal.SIGTERM`, used in concrete examples as a
typical externally registered shutdown signal. -/
def SIGTERM : Nat := 15

/-- Outcome of invoking one monitor callable (a probe) in a given round: it
returns a health boolean or raises an exception carrying a message.  A probe
is modelled as a function from the round number to its outcome, so that its
behaviour may change from round to round. -/
abbrev Probe := Nat → Except String Bool

/-- Outcome of invoking one shutdown/join callable: it returns or raises an
exception carrying a message. -/
abbrev Act := Except String Unit

/-- Exception message for iterating a `None` callable list
(`for func in self.__join_callables` with the default `None`). -/
def noneIterMsg : String := "TypeError: NoneType object is not iterable"

/-- Observable effects of the watchdog, in program order.  Log events carry
the identity of the callable involved as its registration index; `probeCall`
also carries the polling round in which the probe was invoked.
`blockingWait` records a `threading.Event.wait` that actually blocked (the
event was not set when the wait started); a wait on a set event returns
immediately and is not recorded.  `loopExit` marks the monitor thread
returning from `Watchdog.__monitor`. -/
inductive Event where
  | probeCall (round idx : Nat)
  | shutdownAction (idx : Nat)
  | joinAction (idx : Nat)
  | installHandler (sig : Nat)
  | logWarnCaught (sig : Nat)
  | logInitShutdown
  | logErrShutdown (idx : Nat) (msg : String)
  | logErrMonitor (idx : Nat) (msg : String)
  | logErrJoin (idx : Nat) (msg : String)
  | logShutdownComplete
  | blockingWait
  | loopExit
deriving DecidableEq

/-- The fields of a `Watchdog` instance.  `signal` is `self.__signal` (the
recorded trigger cause, `none` = not triggered), `sleeperSet` the state of the
`self.__sleeper` `threading.Event`, `shutdownSignals` the
`self.__shutdown_signals` list.  Callable lists are `Option`s because the
constructor stores the arguments unchanged, defaulting to `None`. -/
structure WState where
  monitorCallables : Option (List Probe)
  shutdownCallables : Option (List Act)
  joinCallables : Option (List Act)
  monitorDelay : Nat
  shutdownSignals : List Nat
  sleeperSet : Bool
  signal : Option Nat

/-- Run a list of fallible zero-argument callables in order, starting at
registration index `i`: each is invoked (`mkRun`), and a raised exception is
caught and logged with the callable's identity and message (`mkErr`), never
propagated — the `try`/`except` wrapped around each call in
`Watchdog.__handle_shutdown` and `Watchdog.join`. -/
def runCallables (mkRun : Nat → Event) (mkErr : Nat → String → Event) :
    List Act → Nat → List Event
  | [], _ => []
  | f :: rest, i =>
      mkRun i ::
        ((match f with
          | Except.ok _ => []
          | Except.error m => [mkErr i m]) ++ runCallables mkRun mkErr rest (i + 1))

/-- `Watchdog.__handle_shutdown` (sequential semantics): if no cause is
recorded yet, record `sigNum`, set the sleeper event, log the caught cause,
and — when the shutdown-callables list is truthy (neither `None` nor empty) —
run every shutdown callable in order with per-callable error isolation.
A call finding a cause already recorded does nothing. -/
def handleShutdown (s : WState) (sigNum : Nat) : WState × List Event :=
  if s.signal = none then
    let s1 : WState := { s with signal := some sigNum, sleeperSet := true }
    match s.shutdownCallables with
    | some fs =>
        if fs.isEmpty then (s1, [Event.logWarnCaught sigNum])
        else (s1, Event.logWarnCaught sigNum :: Event.logInitShutdown ::
                  runCallables Event.shutdownAction Event.logErrShutdown fs 0)
    | none => (s1, [Event.logWarnCaught sigNum])
  else (s, [])

/-- One step of the fold in `Watchdog.register_shutdown_signals`: a number
already in `self.__shutdown_signals` is skipped; otherwise the process-wide
handler is installed (`signal.signal(num, self.__handle_shutdown)`) and the
number appended. -/
def registerSignalsStep (acc : WState × List Event) (num : Nat) : WState × List Event :=
  if num ∈ acc.1.shutdownSignals then acc
  else ({ acc.1 with shutdownSignals := acc.1.shutdownSignals ++ [num] },
        acc.2 ++ [Event.installHandler num])

/-- `Watchdog.register_shutdown_signals`. -/
def registerShutdownSignals (s : WState) (sigNums : List Nat) : WState × List Event :=
  sigNums.foldl registerSignalsStep (s, [])

/-- `Watchdog.register_shutdown_callables`: appends, except that a `None` or
empty current list (Python falsy) is replaced by the argument. -/
def registerShutdownCallables (s : WState) (cs : List Act) : WState :=
  match s.shutdownCallables with
  | some fs =>
      if fs.isEmpty then { s with shutdownCallables := some cs }
      else { s with shutdownCallables := some (fs ++ cs) }
  | none => { s with shutdownCallables := some cs }

/-- `Watchdog.register_monitor_callables`: same pattern as
`registerShutdownCallables`. -/
def registerMonitorCallables (s : WState) (cs : List Probe) : WState :=
  match s.monitorCallables with
  | some fs =>
      if fs.isEmpty then { s with monitorCallables := some cs }
      else { s with monitorCallables := some (fs ++ cs) }
  | none => { s with monitorCallables := some cs }

/-- `Watchdog.__init__`: stores the callable lists unchanged (defaults
`None`), starts with an empty signal list, an unset sleeper and no recorded
cause, and registers the shutdown signals when the argument is truthy. -/
def initWatchdog (monitorCallables : Option (List Probe))
    (shutdownCallables joinCallables : Option (List Act))
    (shutdownSignals : Option (List Nat)) (monitorDelay : Nat) :
    WState × List Event :=
  let s : WState :=
    { monitorCallables := monitorCallables, shutdownCallables := shutdownCallables,
      joinCallables := joinCallables, monitorDelay := monitorDelay,
      shutdownSignals := [], sleeperSet := false, signal := none }
  match shutdownSignals with
  | some sigs => if sigs.isEmpty then (s, []) else registerShutdownSignals s sigs
  | none => (s, [])

/-- `self.__sleeper.wait(timeout)`: the `threading.Event` is level-triggered,
so a wait on a set event returns immediately; only a wait that finds the
event unset blocks (for up to the timeout), recorded as `blockingWait`.
The state is never changed by waiting. -/
def sleeperWait (s : WState) : WState × List Event :=
  if s.sleeperSet then (s, []) else (s, [Event.blockingWait])

/-- One pass of `for func in self.__monitor_callables` inside the polling
loop of `Watchdog.__monitor`, at round `r`, with the next probe at
registration index `i`.  `ext i` models an external signal delivered (and its
`__handle_shutdown` handler run to completion in the delivery context) just
before the `if self.__signal is not None: break` check for probe `i`; this is
the linearisation of a mid-round signal arrival.  A probe returning `False`
fires `__handle_shutdown(signal.SIGABRT, None)` and breaks; a raising probe
is logged and the round continues. -/
def monitorRoundAux (ext : Nat → Option Nat) (r : Nat) :
    List Probe → Nat → WState → WState × List Event
  | [], _, s => (s, [])
  | p :: rest, i, s =>
      let step : WState × List Event :=
        match ext i with
        | some sg => handleShutdown s sg
        | none => (s, [])
      if step.1.signal ≠ none then (step.1, step.2)
      else
        match p r with
        | Except.ok true =>
            let next := monitorRoundAux ext r rest (i + 1) step.1
            (next.1, step.2 ++ Event.probeCall r i :: next.2)
        | Except.ok false =>
            let fired := handleShutdown step.1 SIGABRT
            (fired.1, step.2 ++ Event.probeCall r i :: fired.2)
        | Except.error m =>
            let next := monitorRoundAux ext r rest (i + 1) step.1
            (next.1, step.2 ++ Event.probeCall r i :: Event.logErrMonitor i m :: next.2)

/-- Result of running the `while self.__signal is None` loop of
`Watchdog.__monitor` for a bounded number of iterations: the loop exited
(its condition became false), is still running (iteration bound exhausted
with the condition still true), or raised an uncaught exception
(iterating `None` monitor callables). -/
inductive LoopRes where
  | exited (s : WState)
  | running (s : WState)
  | raised (msg : String)

/-- The `while self.__signal is None` loop of `Watchdog.__monitor`, with
`fuel` bounding the number of iterations and `r` numbering the current round.
Each iteration runs one probe round, then `self.__sleeper.wait(self.__monitor_delay)`,
then re-checks the condition. -/
def monitorLoop (ext : Nat → Nat → Option Nat) (fuel r : Nat) (s : WState) :
    LoopRes × List Event :=
  if s.signal ≠ none then (LoopRes.exited s, [])
  else
    match fuel with
    | 0 => (LoopRes.running s, [])
    | fuel' + 1 =>
      match s.monitorCallables with
      | none => (LoopRes.raised noneIterMsg, [])
      | some probes =>
        let round := monitorRoundAux (ext r) r probes 0 s
        let wt := sleeperWait round.1
        let rest := monitorLoop ext fuel' (r + 1) wt.1
        (rest.1, round.2 ++ wt.2 ++ rest.2)

/-- The lazy sentinel registration on first loop entry in
`Watchdog.__monitor`: `if signal.SIGABRT not in self.__shutdown_signals:
self.register_shutdown_signals(sig_nums=[signal.SIGABRT])`. -/
def ensureSentinel (s : WState) : WState × List Event :=
  if SIGABRT ∈ s.shutdownSignals then (s, [])
  else registerShutdownSignals s [SIGABRT]

/-- `Watchdog.__monitor`, the monitor-thread body: wait (up to the start
delay) on the sleeper, and if no cause was recorded during that wait, lazily
register the SIGABRT sentinel and enter the polling loop.  `loopExit` marks
the thread returning normally. -/
def monitor (ext : Nat → Nat → Option Nat) (fuel : Nat) (s : WState) :
    LoopRes × List Event :=
  let w := sleeperWait s
  if w.1.signal = none then
    let reg := ensureSentinel w.1
    let lp := monitorLoop ext fuel 0 reg.1
    match lp.1 with
    | LoopRes.exited s2 => (LoopRes.exited s2, w.2 ++ reg.2 ++ lp.2 ++ [Event.loopExit])
    | LoopRes.running s2 => (LoopRes.running s2, w.2 ++ reg.2 ++ lp.2)
    | LoopRes.raised m => (LoopRes.raised m, w.2 ++ reg.2 ++ lp.2)
  else (LoopRes.exited w.1, w.2 ++ [Event.loopExit])

/-- The trace of events produced by the loop in `Watchdog.join` over a
non-`None` join-callables list, followed by the `shutdown complete` log. -/
def joinTrace (fs : List Act) : List Event :=
  runCallables Event.joinAction Event.logErrJoin fs 0 ++ [Event.logShutdownComplete]

/-- `Watchdog.join`, applied to the state left behind by the exited monitor
thread (`self.__thread.join()` is its first statement, so everything below it
runs strictly after the monitor loop has exited).  Iterating the `None`
default of `self.__join_callables` raises `TypeError`: unlike the
shutdown-callables path there is no truthiness guard here. -/
def join (s : WState) : Except String (WState × List Event) :=
  match s.joinCallables with
  | none => Except.error noneIterMsg
  | some fs => Except.ok (s, joinTrace fs)

/-- Registration indices of the shutdown-callable invocations in a trace, in
order. -/
def shutdownIdxOf (evs : List Event) : List Nat :=
  evs.filterMap fun e =>
    match e with
    | Event.shutdownAction i => some i
    | _ => none

/-- Registration indices of the join-callable invocations in a trace, in
order. -/
def joinIdxOf (evs : List Event) : List Nat :=
  evs.filterMap fun e =>
    match e with
    | Event.joinAction i => some i
    | _ => none

/-- Error message raised by the faulting callable in concrete examples. -/
def boomMsg : String := "boom"

/-- A concrete callable list whose second callable (index 1) raises. -/
def actsBoom : List Act := [Except.ok (), Except.error boomMsg, Except.ok ()]

/-- A concrete not-yet-triggered watchdog whose shutdown and join callables
are both `actsBoom`. -/
def sBoom : WState :=
  { monitorCallables := none, shutdownCallables := some actsBoom,
    joinCallables := some actsBoom, monitorDelay := 2, shutdownSignals := [],
    sleeperSet := false, signal := none }

/-- Is the event a probe invocation? -/
def isProbeEvent : Event → Bool
  | Event.probeCall _ _ => true
  | _ => false

/-- Is the event the `caught '…'` warning that `__handle_shutdown` logs on
winning the trigger?  Exactly one such event exists per trigger. -/
def isWarnEvent : Event → Bool
  | Event.logWarnCaught _ => true
  | _ => false

/-- Is the event something the monitor loop must stop doing once a trigger
has fired: evaluating a probe, or actually blocking in a wait? -/
def isCoreEvent : Event → Bool
  | Event.probeCall _ _ => true
  | Event.blockingWait => true
  | _ => false

/-- The trace contains no probe evaluation and no blocking wait. -/
def coreFree (evs : List Event) : Bool := evs.all fun e => !isCoreEvent e

/-- The trace contains no trigger-winning warning. -/
def noWarn (evs : List Event) : Bool := evs.all fun e => !isWarnEvent e

/-- After the first trigger-winning warning in the trace, no probe is
evaluated and no wait blocks. -/
def goodTrace : List Event → Bool
  | [] => true
  | e :: rest => if isWarnEvent e then coreFree rest else goodTrace rest

/-- A probe that is always healthy. -/
def probeTrue : Probe := fun _ => Except.ok true

/-- A probe that always reports unhealthy. -/
def probeFalse : Probe := fun _ => Except.ok false

/-- A probe that always raises. -/
def probeBoom : Probe := fun _ => Except.error boomMsg

/-- The round-level schedule delivering no mid-round external signal. -/
def extNone : Nat → Option Nat := fun _ => none

/-- The loop-level schedule delivering no external signal in any round. -/
def extNone2 : Nat → Nat → Option Nat := fun _ _ => none

/-- Concrete watchdog polling healthy, unhealthy, healthy probes. -/
def sMon3 : WState :=
  { monitorCallables := some [probeTrue, probeFalse, probeTrue],
    shutdownCallables := none, joinCallables := none, monitorDelay := 2,
    shutdownSignals := [], sleeperSet := false, signal := none }

/-- Concrete watchdog polling healthy, raising, healthy probes. -/
def sMon4 : WState :=
  { monitorCallables := some [probeTrue, probeBoom, probeTrue],
    shutdownCallables := none, joinCallables := none, monitorDelay := 2,
    shutdownSignals := [], sleeperSet := false, signal := none }

/-- Events the monitor thread and the signal-delivery context can emit;
`joinAction`, `logErrJoin` and `logShutdownComplete` are emitted only by
`join` in the caller context after the thread has exited. -/
def isMonitorEvent : Event → Bool
  | Event.joinAction _ => false
  | Event.logErrJoin _ _ => false
  | Event.logShutdownComplete => false
  | _ => true

/-- A concrete triggered watchdog (cause SIGTERM recorded, sleeper set) whose
join callables are `actsBoom`. -/
def sTrig : WState :=
  { monitorCallables := none, shutdownCallables := none,
    joinCallables := some actsBoom, monitorDelay := 2,
    shutdownSignals := [SIGTERM], sleeperSet := true, signal := some SIGTERM }

/-!
Micro-step interleaving model of `Watchdog.__handle_shutdown` for the
concurrency analysis.  The body

```
if self.__signal is None:
    self.__signal = sig_num
    self.__sleeper.set()
    ... run shutdown callables ...
```

spans several bytecode instructions; CPython's interpreter may switch threads
(or run a signal handler in the main thread) between any two of them, so the
load in the `is None` test and the store are not one indivisible step.
-/

/-- The shared mutable state both contexts see: the recorded cause, the
sleeper event, and a count of how many times the shutdown-callables block was
executed. -/
structure CState where
  signal : Option Nat
  sleeperSet : Bool
  shutdownRuns : Nat
deriving DecidableEq

/-- One in-flight call of `__handle_shutdown`: the cause it carries and its
program counter. -/
structure ThreadSt where
  cause : Nat
  pc : Nat
deriving DecidableEq

/-- One interpreter step of `__handle_shutdown` at bytecode granularity:
pc 0 is the `if self.__signal is None` test (a failing test returns, pc 4),
pc 1 the `self.__signal = sig_num` store, pc 2 `self.__sleeper.set()`,
pc 3 the shutdown-callables block (counted as one execution), pc 4 returned. -/
def cstep (g : CState) (t : ThreadSt) : CState × ThreadSt :=
  match t.pc with
  | 0 => if g.signal = none then (g, { t with pc := 1 }) else (g, { t with pc := 4 })
  | 1 => ({ g with signal := some t.cause }, { t with pc := 2 })
  | 2 => ({ g with sleeperSet := true }, { t with pc := 3 })
  | 3 => ({ g with shutdownRuns := g.shutdownRuns + 1 }, { t with pc := 4 })
  | _ => (g, t)

/-- Interleave two concurrent calls of `__handle_shutdown` under a schedule:
`true` steps the signal-delivery context's call, `false` steps the
monitor-loop context's call. -/
def runSched : List Bool → CState → ThreadSt → ThreadSt → CState × ThreadSt × ThreadSt
  | [], g, a, b => (g, a, b)
  | true :: restS, g, a, b =>
      let r := cstep g a
      runSched restS r.1 r.2 b
  | false :: restS, g, a, b =>
      let r := cstep g b
      runSched restS r.1 a r.2

/-!
Helper lemmas about the sequential embedding.
-/

/-- A call of `__handle_shutdown` that finds a cause already recorded is a
no-op. -/
lemma handleShutdown_of_triggered (s : WState) (c : Nat) (h : s.signal ≠ none) :
    handleShutdown s c = (s, []) := by
  simp [handleShutdown, h]

/-- After any call of `__handle_shutdown` a cause is recorded. -/
lemma handleShutdown_signal_ne (s : WState) (c : Nat) :
    (handleShutdown s c).1.signal ≠ none := by
  by_cases h : s.signal = none
  · rcases hsc : s.shutdownCallables with _ | fs
    · simp [handleShutdown, h, hsc]
    · by_cases he : fs.isEmpty <;> simp [handleShutdown, h, hsc, he]
  · simp [handleShutdown, h]

/-- Anything found in the signal list after `register_shutdown_signals` was
either already registered or among the numbers passed in. -/
lemma registerSignals_foldl_mem (sigs : List Nat) :
    ∀ (acc : WState × List Event) (x : Nat),
      x ∈ (sigs.foldl registerSignalsStep acc).1.shutdownSignals →
      x ∈ acc.1.shutdownSignals ∨ x ∈ sigs := by
  induction sigs with
  | nil => intro acc x h; exact Or.inl h
  | cons num rest ih =>
    intro acc x h
    rw [List.foldl_cons] at h
    rcases ih _ x h with h' | h'
    · unfold registerSignalsStep at h'
      by_cases hm : num ∈ acc.1.shutdownSignals
      · rw [if_pos hm] at h'
        exact Or.inl h'
      · rw [if_neg hm] at h'
        simp only [List.mem_append, List.mem_singleton] at h'
        rcases h' with h2 | h2
        · exact Or.inl h2
        · exact Or.inr (by simp [h2])
    · exact Or.inr (List.mem_cons_of_mem _ h')

/-- `register_shutdown_signals` touches only `self.__shutdown_signals`; every
other field of the instance is unchanged. -/
lemma registerSignals_foldl_fields (sigs : List Nat) :
    ∀ acc : WState × List Event,
      (sigs.foldl registerSignalsStep acc).1.signal = acc.1.signal ∧
      (sigs.foldl registerSignalsStep acc).1.sleeperSet = acc.1.sleeperSet ∧
      (sigs.foldl registerSignalsStep acc).1.joinCallables = acc.1.joinCallables ∧
      (sigs.foldl registerSignalsStep acc).1.monitorCallables = acc.1.monitorCallables ∧
      (sigs.foldl registerSignalsStep acc).1.shutdownCallables = acc.1.shutdownCallables := by
  induction sigs with
  | nil => intro acc; exact ⟨rfl, rfl, rfl, rfl, rfl⟩
  | cons num rest ih =>
    intro acc
    rw [List.foldl_cons]
    obtain ⟨i1, i2, i3, i4, i5⟩ := ih (registerSignalsStep acc num)
    have hstep :
        (registerSignalsStep acc num).1.signal = acc.1.signal ∧
        (registerSignalsStep acc num).1.sleeperSet = acc.1.sleeperSet ∧
        (registerSignalsStep acc num).1.joinCallables = acc.1.joinCallables ∧
        (registerSignalsStep acc num).1.monitorCallables = acc.1.monitorCallables ∧
        (registerSignalsStep acc num).1.shutdownCallables = acc.1.shutdownCallables := by
      unfold registerSignalsStep
      split <;> exact ⟨rfl, rfl, rfl, rfl, rfl⟩
    obtain ⟨j1, j2, j3, j4, j5⟩ := hstep
    exact ⟨i1.trans j1, i2.trans j2, i3.trans j3, i4.trans j4, i5.trans j5⟩

/-- Every event emitted by the callable-running loop satisfies `p` whenever
both event shapes it can emit do. -/
lemma runCallables_all (p : Event → Bool) (mkRun : Nat → Event)
    (mkErr : Nat → String → Event)
    (hR : ∀ j, p (mkRun j) = true) (hE : ∀ j m, p (mkErr j m) = true) :
    ∀ (fs : List Act) (i : Nat), (runCallables mkRun mkErr fs i).all p = true := by
  intro fs
  induction fs with
  | nil => intro i; rfl
  | cons f rest ih =>
    intro i
    cases f <;> simp [runCallables, hR, hE, ih]

/-- Extracting the invocation indices from the callable-running loop's trace
yields exactly the registration indices, in order: every callable is invoked
exactly once, regardless of which of them raise. -/
lemma filterMap_runCallables (g : Event → Option Nat) (mkRun : Nat → Event)
    (mkErr : Nat → String → Event)
    (hR : ∀ j, g (mkRun j) = some j) (hE : ∀ j m, g (mkErr j m) = none) :
    ∀ (fs : List Act) (i : Nat),
      (runCallables mkRun mkErr fs i).filterMap g = List.range' i fs.length := by
  intro fs
  induction fs with
  | nil => intro i; rfl
  | cons f rest ih =>
    intro i
    cases f <;>
      simp [runCallables, List.filterMap_cons, hR, hE, ih, List.range'_succ]

/-- A callable that raises has its error logged, with its registration index
and message, by the callable-running loop. -/
lemma runCallables_err_mem (mkRun : Nat → Event) (mkErr : Nat → String → Event) :
    ∀ (fs : List Act) (i k : Nat) (m : String) (hk : k < fs.length),
      fs.get ⟨k, hk⟩ = Except.error m →
      mkErr (i + k) m ∈ runCallables mkRun mkErr fs i := by
  intro fs
  induction fs with
  | nil =>
    intro i k m hk
    exact absurd hk (by simp)
  | cons f rest ih =>
    intro i k m hk hget
    cases k with
    | zero =>
      simp only [List.get] at hget
      subst hget
      simp [runCallables]
    | succ k' =>
      have hk' : k' < rest.length := by
        simpa using hk
      have hrec := ih (i + 1) k' m hk' (by simpa using hget)
      have harith : i + (k' + 1) = i + 1 + k' := by omega
      rw [harith]
      cases f <;> simp [runCallables] <;> tauto

/-- A winning call of `__handle_shutdown` leaves the instance unchanged
except for recording the cause and setting the sleeper, whatever the
shutdown-callables list is. -/
lemma handleShutdown_of_untriggered (s : WState) (c : Nat) (h : s.signal = none) :
    (handleShutdown s c).1 = { s with signal := some c, sleeperSet := true } := by
  rcases hsc : s.shutdownCallables with _ | fs
  · simp [handleShutdown, h, hsc]
  · by_cases he : fs.isEmpty <;> simp [handleShutdown, h, hsc, he]

/-- Per-branch unfolding of a probe round step with no external arrival:
a healthy probe. -/
lemma roundAux_cons_true (r i : Nat) (p : Probe) (rest : List Probe) (s : WState)
    (hs : s.signal = none) (hp : p r = Except.ok true) :
    monitorRoundAux extNone r (p :: rest) i s =
      ((monitorRoundAux extNone r rest (i + 1) s).1,
       Event.probeCall r i :: (monitorRoundAux extNone r rest (i + 1) s).2) := by
  simp [monitorRoundAux, extNone, hs, hp]

/-- Per-branch unfolding of a probe round step with no external arrival:
an unhealthy probe fires the trigger with the SIGABRT sentinel and breaks. -/
lemma roundAux_cons_false (r i : Nat) (p : Probe) (rest : List Probe) (s : WState)
    (hs : s.signal = none) (hp : p r = Except.ok false) :
    monitorRoundAux extNone r (p :: rest) i s =
      ((handleShutdown s SIGABRT).1,
       Event.probeCall r i :: (handleShutdown s SIGABRT).2) := by
  simp [monitorRoundAux, extNone, hs, hp]

/-- Per-branch unfolding of a probe round step with no external arrival:
a raising probe is logged and the round continues. -/
lemma roundAux_cons_err (r i : Nat) (p : Probe) (rest : List Probe) (s : WState)
    (m : String) (hs : s.signal = none) (hp : p r = Except.error m) :
    monitorRoundAux extNone r (p :: rest) i s =
      ((monitorRoundAux extNone r rest (i + 1) s).1,
       Event.probeCall r i :: Event.logErrMonitor i m ::
         (monitorRoundAux extNone r rest (i + 1) s).2) := by
  simp [monitorRoundAux, extNone, hs, hp]

/-- The shutdown-callable runner emits no probe evaluations and no blocking
waits. -/
lemma runCallables_shutdown_coreFree (fs : List Act) (i : Nat) :
    coreFree (runCallables Event.shutdownAction Event.logErrShutdown fs i) = true := by
  unfold coreFree
  exact runCallables_all _ _ _ (fun j => rfl) (fun j m => rfl) fs i

/-- `__handle_shutdown` evaluates no probe and never blocks: its trace is
logs and shutdown-callable invocations only. -/
lemma handleShutdown_coreFree (s : WState) (c : Nat) :
    coreFree (handleShutdown s c).2 = true := by
  by_cases h : s.signal = none
  · rcases hsc : s.shutdownCallables with _ | fs
    · simp [handleShutdown, h, hsc, coreFree, isCoreEvent]
    · by_cases he : fs.isEmpty
      · simp [handleShutdown, h, hsc, he, coreFree, isCoreEvent]
      · have hrun := runCallables_shutdown_coreFree fs 0
        simp only [coreFree] at hrun
        simp [handleShutdown, h, hsc, he, coreFree, isCoreEvent]
        intro x hx
        have := List.all_eq_true.mp hrun x hx
        simpa [isCoreEvent] using this
  · simp [handleShutdown, h, coreFree]

/-- A core-free trace contains no probe invocation. -/
lemma coreFree_no_probe {evs : List Event} (h : coreFree evs = true) (r j : Nat) :
    Event.probeCall r j ∉ evs := by
  intro hmem
  unfold coreFree at h
  have := List.all_eq_true.mp h _ hmem
  simp [isCoreEvent] at this

/-- Waiting on the sleeper never changes the instance state. -/
lemma sleeperWait_fst (s : WState) : (sleeperWait s).1 = s := by
  unfold sleeperWait
  split <;> rfl

/-- One unfolding of the polling loop when its condition holds and the
monitor-callables list is present. -/
lemma monitorLoop_cons (ext : Nat → Nat → Option Nat) (fuel r : Nat) (s : WState)
    (probes : List Probe) (hs : s.signal = none)
    (hmc : s.monitorCallables = some probes) :
    monitorLoop ext (fuel + 1) r s =
      ((monitorLoop ext fuel (r + 1)
          (sleeperWait (monitorRoundAux (ext r) r probes 0 s).1).1).1,
       (monitorRoundAux (ext r) r probes 0 s).2 ++
         (sleeperWait (monitorRoundAux (ext r) r probes 0 s).1).2 ++
         (monitorLoop ext fuel (r + 1)
           (sleeperWait (monitorRoundAux (ext r) r probes 0 s).1).1).2) := by
  rw [monitorLoop]
  simp [hs, hmc]

/-- Skipping a prefix of probes that do not report unhealthy: when the probe
at offset `pre.length` from the start index reports unhealthy, the round
records the SIGABRT sentinel as the cause and invokes no probe beyond it. -/
lemma roundAux_short_circuit (r : Nat) :
    ∀ (pre post : List Probe) (pk : Probe) (i : Nat) (s : WState),
      s.signal = none →
      (∀ p ∈ pre, p r ≠ Except.ok false) →
      pk r = Except.ok false →
      (monitorRoundAux extNone r (pre ++ pk :: post) i s).1.signal = some SIGABRT ∧
      ∀ r' j, Event.probeCall r' j ∈ (monitorRoundAux extNone r (pre ++ pk :: post) i s).2 →
        j ≤ i + pre.length := by
  intro pre
  induction pre with
  | nil =>
    intro post pk i s hs hpre hk
    rw [List.nil_append, roundAux_cons_false r i pk post s hs hk]
    constructor
    · rw [show ((handleShutdown s SIGABRT).1,
          Event.probeCall r i :: (handleShutdown s SIGABRT).2).1 =
            (handleShutdown s SIGABRT).1 from rfl]
      rw [handleShutdown_of_untriggered s SIGABRT hs]
    · intro r' j hmem
      simp only [List.mem_cons] at hmem
      simp only [List.length_nil]
      rcases hmem with heq | hmem
      · injection heq with h1 h2
        omega
      · exact absurd hmem (coreFree_no_probe (handleShutdown_coreFree s SIGABRT) r' j)
  | cons p pre' ih =>
    intro post pk i s hs hpre hk
    have hp : p r ≠ Except.ok false := hpre p (List.mem_cons_self p pre')
    have hpre' : ∀ q ∈ pre', q r ≠ Except.ok false :=
      fun q hq => hpre q (List.mem_cons_of_mem p hq)
    obtain ⟨ih1, ih2⟩ := ih post pk (i + 1) s hs hpre' hk
    rcases hpr : p r with m | b
    · rw [List.cons_append, roundAux_cons_err r i p (pre' ++ pk :: post) s m hs hpr]
      refine ⟨ih1, ?_⟩
      intro r' j hmem
      simp only [List.mem_cons] at hmem
      simp only [List.length_cons]
      rcases hmem with heq | heq | hmem
      · injection heq with h1 h2
        omega
      · exact absurd heq (by simp)
      · have := ih2 r' j hmem
        omega
    · cases b
      · exact absurd hpr hp
      · rw [List.cons_append, roundAux_cons_true r i p (pre' ++ pk :: post) s hs hpr]
        refine ⟨ih1, ?_⟩
        intro r' j hmem
        simp only [List.mem_cons] at hmem
        simp only [List.length_cons]
        rcases hmem with heq | hmem
        · injection heq with h1 h2
          omega
        · have := ih2 r' j hmem
          omega

/-- A round in which no probe reports unhealthy leaves the instance
unchanged (in particular no trigger fires), invokes every probe, and logs
every raising probe with its identity and message. -/
lemma roundAux_no_trigger (r : Nat) :
    ∀ (probes : List Probe) (i : Nat) (s : WState),
      s.signal = none →
      (∀ p ∈ probes, p r ≠ Except.ok false) →
      (monitorRoundAux extNone r probes i s).1 = s ∧
      (∀ j, j < probes.length →
        Event.probeCall r (i + j) ∈ (monitorRoundAux extNone r probes i s).2) ∧
      (∀ j (hj : j < probes.length) m, probes.get ⟨j, hj⟩ r = Except.error m →
        Event.logErrMonitor (i + j) m ∈ (monitorRoundAux extNone r probes i s).2) := by
  intro probes
  induction probes with
  | nil =>
    intro i s hs hp
    refine ⟨rfl, ?_, ?_⟩
    · intro j hj
      exact absurd hj (by simp)
    · intro j hj
      exact absurd hj (by simp)
  | cons p rest ih =>
    intro i s hs hp
    have hphead : p r ≠ Except.ok false := hp p (List.mem_cons_self p rest)
    have hprest : ∀ q ∈ rest, q r ≠ Except.ok false :=
      fun q hq => hp q (List.mem_cons_of_mem p hq)
    obtain ⟨ih1, ih2, ih3⟩ := ih (i + 1) s hs hprest
    rcases hpr : p r with m | b
    · rw [roundAux_cons_err r i p rest s m hs hpr]
      refine ⟨ih1, ?_, ?_⟩
      · intro j hj
        cases j with
        | zero => simp
        | succ j' =>
          have hmem := ih2 j' (by simpa using hj)
          have harith : i + (j' + 1) = i + 1 + j' := by omega
          rw [harith]
          exact List.mem_cons_of_mem _ (List.mem_cons_of_mem _ hmem)
      · intro j hj m' hget
        cases j with
        | zero =>
          have hpm : p r = Except.error m' := hget
          rw [hpr] at hpm
          injection hpm with hm
          subst hm
          simp
        | succ j' =>
          have hj' : j' < rest.length := by simpa using hj
          have hmem := ih3 j' hj' m' hget
          have harith : i + (j' + 1) = i + 1 + j' := by omega
          rw [harith]
          exact List.mem_cons_of_mem _ (List.mem_cons_of_mem _ hmem)
    · cases b
      · exact absurd hpr hphead
      · rw [roundAux_cons_true r i p rest s hs hpr]
        refine ⟨ih1, ?_, ?_⟩
        · intro j hj
          cases j with
          | zero => simp
          | succ j' =>
            have hmem := ih2 j' (by simpa using hj)
            have harith : i + (j' + 1) = i + 1 + j' := by omega
            rw [harith]
            exact List.mem_cons_of_mem _ hmem
        · intro j hj m' hget
          cases j with
          | zero =>
            have hpm : p r = Except.error m' := hget
            rw [hpr] at hpm
            exact absurd hpm (by simp)
          | succ j' =>
            have hj' : j' < rest.length := by simpa using hj
            have hmem := ih3 j' hj' m' hget
            have harith : i + (j' + 1) = i + 1 + j' := by omega
            rw [harith]
            exact List.mem_cons_of_mem _ hmem

/-- In a round entered with no trigger recorded, the first probe is always
invoked, whatever its outcome. -/
lemma roundAux_head_probe (r : Nat) (p : Probe) (rest : List Probe) (i : Nat)
    (s : WState) (hs : s.signal = none) :
    Event.probeCall r i ∈ (monitorRoundAux extNone r (p :: rest) i s).2 := by
  rcases hpr : p r with m | b
  · rw [roundAux_cons_err r i p rest s m hs hpr]
    simp
  · cases b
    · rw [roundAux_cons_false r i p rest s hs hpr]
      simp
    · rw [roundAux_cons_true r i p rest s hs hpr]
      simp

/-- A probe round step entered with a cause already recorded breaks at once,
whether or not an external signal arrives at the check (the arrival's handler
is then inert). -/
lemma roundAux_cons_break (ext : Nat → Option Nat) (r i : Nat) (p : Probe)
    (rest : List Probe) (s : WState) (h : s.signal ≠ none) :
    monitorRoundAux ext r (p :: rest) i s = (s, []) := by
  rcases hext : ext i with _ | sg
  · simp [monitorRoundAux, hext, h]
  · simp [monitorRoundAux, hext, handleShutdown_of_triggered s sg h, h]

/-- An external signal arriving at the check of an untriggered round step
wins the trigger and the round breaks with the handler's effects. -/
lemma roundAux_cons_ext (ext : Nat → Option Nat) (r i : Nat) (p : Probe)
    (rest : List Probe) (s : WState) (sg : Nat) (hext : ext i = some sg)
    (_hs : s.signal = none) :
    monitorRoundAux ext r (p :: rest) i s = handleShutdown s sg := by
  have hw : (handleShutdown s sg).1.signal ≠ none := handleShutdown_signal_ne s sg
  simp [monitorRoundAux, hext, hw]

/-- General-schedule variant of `roundAux_cons_true`. -/
lemma roundAux_cons_g_true (ext : Nat → Option Nat) (r i : Nat) (p : Probe)
    (rest : List Probe) (s : WState) (hext : ext i = none)
    (hs : s.signal = none) (hp : p r = Except.ok true) :
    monitorRoundAux ext r (p :: rest) i s =
      ((monitorRoundAux ext r rest (i + 1) s).1,
       Event.probeCall r i :: (monitorRoundAux ext r rest (i + 1) s).2) := by
  simp [monitorRoundAux, hext, hs, hp]

/-- General-schedule variant of `roundAux_cons_false`. -/
lemma roundAux_cons_g_false (ext : Nat → Option Nat) (r i : Nat) (p : Probe)
    (rest : List Probe) (s : WState) (hext : ext i = none)
    (hs : s.signal = none) (hp : p r = Except.ok false) :
    monitorRoundAux ext r (p :: rest) i s =
      ((handleShutdown s SIGABRT).1,
       Event.probeCall r i :: (handleShutdown s SIGABRT).2) := by
  simp [monitorRoundAux, hext, hs, hp]

/-- General-schedule variant of `roundAux_cons_err`. -/
lemma roundAux_cons_g_err (ext : Nat → Option Nat) (r i : Nat) (p : Probe)
    (rest : List Probe) (s : WState) (m : String) (hext : ext i = none)
    (hs : s.signal = none) (hp : p r = Except.error m) :
    monitorRoundAux ext r (p :: rest) i s =
      ((monitorRoundAux ext r rest (i + 1) s).1,
       Event.probeCall r i :: Event.logErrMonitor i m ::
         (monitorRoundAux ext r rest (i + 1) s).2) := by
  simp [monitorRoundAux, hext, hs, hp]

/-- The polling loop entered with a cause already recorded exits at once,
with no events, whatever the iteration bound. -/
lemma monitorLoop_exit (ext : Nat → Nat → Option Nat) (fuel r : Nat)
    (s : WState) (h : s.signal ≠ none) :
    monitorLoop ext fuel r s = (LoopRes.exited s, []) := by
  rw [monitorLoop.eq_def]
  simp [h]

/-- A wait on a set sleeper returns immediately with no events. -/
lemma sleeperWait_set (s : WState) (h : s.sleeperSet = true) :
    sleeperWait s = (s, []) := by
  simp [sleeperWait, h]

/-- The sleeper wait can only emit `blockingWait`. -/
lemma sleeperWait_all (p : Event → Bool) (hB : p Event.blockingWait = true)
    (s : WState) : ((sleeperWait s).2).all p = true := by
  unfold sleeperWait
  split <;> simp [hB]

/-- The fold of `register_shutdown_signals` can only emit `installHandler`
events. -/
lemma registerSignals_foldl_all (p : Event → Bool)
    (hp : ∀ n, p (Event.installHandler n) = true) (sigs : List Nat) :
    ∀ acc : WState × List Event, acc.2.all p = true →
      ((sigs.foldl registerSignalsStep acc).2).all p = true := by
  induction sigs with
  | nil => intro acc h; exact h
  | cons num rest ih =>
    intro acc h
    rw [List.foldl_cons]
    apply ih
    unfold registerSignalsStep
    split
    · exact h
    · simp only [List.all_append]
      rw [h]
      simp [hp]

/-- The lazy sentinel registration can only emit `installHandler` events. -/
lemma ensureSentinel_all (p : Event → Bool)
    (hp : ∀ n, p (Event.installHandler n) = true) (s : WState) :
    ((ensureSentinel s).2).all p = true := by
  unfold ensureSentinel
  split
  · rfl
  · unfold registerShutdownSignals
    exact registerSignals_foldl_all p hp [SIGABRT] (s, []) rfl

/-- Every event `__handle_shutdown` emits is a warning log, the initiation
log, a shutdown-callable invocation, or a shutdown-callable error log. -/
lemma handleShutdown_all (p : Event → Bool)
    (hW : ∀ c, p (Event.logWarnCaught c) = true)
    (hI : p Event.logInitShutdown = true)
    (hS : ∀ j, p (Event.shutdownAction j) = true)
    (hE : ∀ j m, p (Event.logErrShutdown j m) = true)
    (s : WState) (c : Nat) : ((handleShutdown s c).2).all p = true := by
  by_cases h : s.signal = none
  · rcases hsc : s.shutdownCallables with _ | fs
    · simp [handleShutdown, h, hsc, hW]
    · by_cases he : fs.isEmpty
      · simp [handleShutdown, h, hsc, he, hW]
      · simp only [handleShutdown, h, if_pos, hsc, he, Bool.false_eq_true, if_false,
          List.all_cons, hW, hI, Bool.true_and]
        exact runCallables_all p _ _ hS hE fs 0
  · simp [handleShutdown, h]

/-- Every event a probe round emits is a probe invocation, a probe error
log, or an event of `__handle_shutdown`. -/
lemma roundAux_all (p : Event → Bool)
    (hP : ∀ r i, p (Event.probeCall r i) = true)
    (hM : ∀ i m, p (Event.logErrMonitor i m) = true)
    (hW : ∀ c, p (Event.logWarnCaught c) = true)
    (hI : p Event.logInitShutdown = true)
    (hS : ∀ j, p (Event.shutdownAction j) = true)
    (hE : ∀ j m, p (Event.logErrShutdown j m) = true)
    (ext : Nat → Option Nat) (r : Nat) :
    ∀ (probes : List Probe) (i : Nat) (s : WState),
      ((monitorRoundAux ext r probes i s).2).all p = true := by
  intro probes
  induction probes with
  | nil => intro i s; rfl
  | cons q rest ih =>
    intro i s
    by_cases hsig : s.signal = none
    · rcases hext : ext i with _ | sg
      · rcases hpr : q r with m | b
        · rw [roundAux_cons_g_err ext r i q rest s m hext hsig hpr]
          simp only [List.all_cons, hP, hM, Bool.true_and]
          exact ih (i + 1) s
        · cases b
          · rw [roundAux_cons_g_false ext r i q rest s hext hsig hpr]
            simp only [List.all_cons, hP, Bool.true_and]
            exact handleShutdown_all p hW hI hS hE s SIGABRT
          · rw [roundAux_cons_g_true ext r i q rest s hext hsig hpr]
            simp only [List.all_cons, hP, Bool.true_and]
            exact ih (i + 1) s
      · rw [roundAux_cons_ext ext r i q rest s sg hext hsig]
        exact handleShutdown_all p hW hI hS hE s sg
    · rw [roundAux_cons_break ext r i q rest s hsig]
      rfl

/-- Every event the polling loop emits comes from a probe round, a sleeper
wait, or `__handle_shutdown`. -/
lemma monitorLoop_all (p : Event → Bool)
    (hP : ∀ r i, p (Event.probeCall r i) = true)
    (hM : ∀ i m, p (Event.logErrMonitor i m) = true)
    (hW : ∀ c, p (Event.logWarnCaught c) = true)
    (hI : p Event.logInitShutdown = true)
    (hS : ∀ j, p (Event.shutdownAction j) = true)
    (hE : ∀ j m, p (Event.logErrShutdown j m) = true)
    (hB : p Event.blockingWait = true)
    (ext : Nat → Nat → Option Nat) :
    ∀ (fuel r : Nat) (s : WState), ((monitorLoop ext fuel r s).2).all p = true := by
  intro fuel
  induction fuel with
  | zero =>
    intro r s
    by_cases hsig : s.signal = none
    · rw [monitorLoop]
      simp [hsig]
    · rw [monitorLoop_exit ext 0 r s hsig]
      rfl
  | succ fuel ih =>
    intro r s
    by_cases hsig : s.signal = none
    · rcases hmc : s.monitorCallables with _ | probes
      · rw [monitorLoop]
        simp [hsig, hmc]
      · rw [monitorLoop_cons ext fuel r s probes hsig hmc]
        simp only [List.all_append]
        rw [roundAux_all p hP hM hW hI hS hE (ext r) r probes 0 s]
        rw [sleeperWait_all p hB _]
        rw [ih (r + 1) _]
        rfl
    · rw [monitorLoop_exit ext (fuel + 1) r s hsig]
      rfl

/-- Every event the monitor thread emits while it runs satisfies `p` when
each event shape it can emit does; in particular no join-phase event is ever
emitted by the monitor thread. -/
lemma monitor_all (p : Event → Bool)
    (hP : ∀ r i, p (Event.probeCall r i) = true)
    (hM : ∀ i m, p (Event.logErrMonitor i m) = true)
    (hW : ∀ c, p (Event.logWarnCaught c) = true)
    (hI : p Event.logInitShutdown = true)
    (hS : ∀ j, p (Event.shutdownAction j) = true)
    (hE : ∀ j m, p (Event.logErrShutdown j m) = true)
    (hB : p Event.blockingWait = true)
    (hH : ∀ n, p (Event.installHandler n) = true)
    (hX : p Event.loopExit = true)
    (ext : Nat → Nat → Option Nat) (fuel : Nat) (s : WState) :
    ((monitor ext fuel s).2).all p = true := by
  unfold monitor
  simp only [sleeperWait_fst]
  by_cases hs0 : s.signal = none
  · rw [if_pos hs0]
    rcases hlp : monitorLoop ext fuel 0 (ensureSentinel s).1 with ⟨res, lpevs⟩
    have hlpall : lpevs.all p = true := by
      have h := monitorLoop_all p hP hM hW hI hS hE hB ext fuel 0 (ensureSentinel s).1
      rw [hlp] at h
      exact h
    rcases res with s2 | s2 | m <;>
      simp [hlp, List.all_append, sleeperWait_all p hB s, ensureSentinel_all p hH s,
            hlpall, hX]
  · rw [if_neg hs0]
    simp [List.all_append, sleeperWait_all p hB s, hX]

/-- A monitor run that ends with the thread exiting has the `loopExit`
marker as its final event. -/
lemma monitor_exited_last (ext : Nat → Nat → Option Nat) (fuel : Nat)
    (s s1 : WState) (evs1 : List Event)
    (h : monitor ext fuel s = (LoopRes.exited s1, evs1)) :
    evs1.getLast? = some Event.loopExit := by
  unfold monitor at h
  simp only [sleeperWait_fst] at h
  by_cases hs0 : s.signal = none
  · rw [if_pos hs0] at h
    rcases hlp : monitorLoop ext fuel 0 (ensureSentinel s).1 with ⟨res, lpevs⟩
    simp only [hlp] at h
    rcases res with s2 | s2 | m
    · rw [Prod.mk.injEq] at h
      rw [← h.2]
      exact List.getLast?_concat _
    · rw [Prod.mk.injEq] at h
      exact LoopRes.noConfusion h.1
    · rw [Prod.mk.injEq] at h
      exact LoopRes.noConfusion h.1
  · rw [if_neg hs0] at h
    rw [Prod.mk.injEq] at h
    rw [← h.2]
    exact List.getLast?_concat _

/-- A warning-free trace contains no trigger warning. -/
lemma noWarn_not_mem {evs : List Event} (h : noWarn evs = true) (c : Nat) :
    Event.logWarnCaught c ∉ evs := by
  intro hmem
  unfold noWarn at h
  have := List.all_eq_true.mp h _ hmem
  simp [isWarnEvent] at this

/-- The join phase never emits a trigger warning. -/
lemma joinTrace_noWarn (fs : List Act) : noWarn (joinTrace fs) = true := by
  unfold noWarn joinTrace
  rw [List.all_append]
  rw [runCallables_all (fun e => !isWarnEvent e) Event.joinAction Event.logErrJoin
        (fun j => rfl) (fun j m => rfl) fs 0]
  rfl

/-- A trace that is entirely core-free is good. -/
lemma goodTrace_of_coreFree : ∀ evs : List Event, coreFree evs = true →
    goodTrace evs = true := by
  intro evs
  induction evs with
  | nil => intro h; rfl
  | cons e rest ih =>
    intro h
    have h2 : coreFree rest = true := by
      unfold coreFree at h ⊢
      rw [List.all_cons] at h
      exact (Bool.and_eq_true_iff.mp h).2
    by_cases hw : isWarnEvent e = true
    · rw [goodTrace, if_pos hw]
      exact h2
    · rw [goodTrace, if_neg hw]
      exact ih h2

/-- A trace with no trigger warning is good. -/
lemma goodTrace_of_noWarn : ∀ evs : List Event, noWarn evs = true →
    goodTrace evs = true := by
  intro evs
  induction evs with
  | nil => intro h; rfl
  | cons e rest ih =>
    intro h
    unfold noWarn at h
    rw [List.all_cons] at h
    obtain ⟨h1, h2⟩ := Bool.and_eq_true_iff.mp h
    have hwf : isWarnEvent e = false := by
      cases hx : isWarnEvent e
      · rfl
      · rw [hx] at h1
        exact absurd h1 (by decide)
    rw [goodTrace, if_neg (by simp [hwf])]
    exact ih h2

/-- Appending to a good trace stays good provided the appended part is good
when no warning has occurred yet, and core-free when one has. -/
lemma goodTrace_append (a b : List Event) (ha : goodTrace a = true)
    (h1 : noWarn a = true → goodTrace b = true)
    (h2 : noWarn a = false → coreFree b = true) :
    goodTrace (a ++ b) = true := by
  revert ha h1 h2
  induction a with
  | nil =>
    intro ha h1 h2
    exact h1 rfl
  | cons e rest ih =>
    intro ha h1 h2
    rw [List.cons_append]
    by_cases hw : isWarnEvent e = true
    · have hna : noWarn (e :: rest) = false := by
        unfold noWarn
        rw [List.all_cons, hw]
        rfl
      have hcb := h2 hna
      have hcr : coreFree rest = true := by
        rw [goodTrace, if_pos hw] at ha
        exact ha
      rw [goodTrace, if_pos hw]
      unfold coreFree at hcr hcb ⊢
      rw [List.all_append, hcr, hcb]
      rfl
    · have hwf : isWarnEvent e = false := by
        cases hx : isWarnEvent e
        · rfl
        · exact absurd hx hw
      have hna : noWarn (e :: rest) = noWarn rest := by
        unfold noWarn
        rw [List.all_cons, hwf]
        rfl
      have ha' : goodTrace rest = true := by
        rw [goodTrace, if_neg hw] at ha
        exact ha
      rw [goodTrace, if_neg hw]
      exact ih ha' (fun h => h1 (by rw [hna]; exact h)) (fun h => h2 (by rw [hna]; exact h))

/-- A winning `__handle_shutdown` emits its warning: its trace is not
warning-free. -/
lemma handleShutdown_noWarn_false (s : WState) (c : Nat) (h : s.signal = none) :
    noWarn (handleShutdown s c).2 = false := by
  rcases hsc : s.shutdownCallables with _ | fs
  · simp [handleShutdown, h, hsc, noWarn, isWarnEvent]
  · by_cases he : fs.isEmpty <;>
      simp [handleShutdown, h, hsc, he, noWarn, isWarnEvent]

/-- `register_shutdown_signals` and the lazy sentinel registration do not
touch the trigger or the sleeper. -/
lemma ensureSentinel_fields (s : WState) :
    (ensureSentinel s).1.signal = s.signal ∧
    (ensureSentinel s).1.sleeperSet = s.sleeperSet := by
  unfold ensureSentinel
  split
  · exact ⟨rfl, rfl⟩
  · unfold registerShutdownSignals
    have h := registerSignals_foldl_fields [SIGABRT] (s, [])
    exact ⟨h.1, h.2.1⟩

/-- Behaviour of one probe round with respect to the trigger: its trace is
good; it preserves "a recorded cause implies the sleeper is set"; a
warning-free round changed nothing; a round that warned left a recorded
cause behind. -/
lemma roundAux_goodSpec (ext : Nat → Option Nat) (r : Nat) :
    ∀ (probes : List Probe) (i : Nat) (s : WState),
      (s.signal ≠ none → s.sleeperSet = true) →
      goodTrace (monitorRoundAux ext r probes i s).2 = true ∧
      ((monitorRoundAux ext r probes i s).1.signal ≠ none →
        (monitorRoundAux ext r probes i s).1.sleeperSet = true) ∧
      (noWarn (monitorRoundAux ext r probes i s).2 = true →
        (monitorRoundAux ext r probes i s).1 = s) ∧
      (noWarn (monitorRoundAux ext r probes i s).2 = false →
        (monitorRoundAux ext r probes i s).1.signal ≠ none) := by
  intro probes
  induction probes with
  | nil =>
    intro i s hinv
    exact ⟨rfl, hinv, fun _ => rfl, fun h => by simp [monitorRoundAux, noWarn] at h⟩
  | cons q rest ih =>
    intro i s hinv
    by_cases hsig : s.signal = none
    · rcases hext : ext i with _ | sg
      · rcases hpr : q r with m | b
        · rw [roundAux_cons_g_err ext r i q rest s m hext hsig hpr]
          obtain ⟨ih1, ih2, ih3, ih4⟩ := ih (i + 1) s hinv
          refine ⟨?_, ih2, ?_, ?_⟩
          · rw [goodTrace, if_neg (by simp [isWarnEvent])]
            rw [goodTrace, if_neg (by simp [isWarnEvent])]
            exact ih1
          · intro h
            apply ih3
            unfold noWarn at h ⊢
            rw [List.all_eq_true] at h ⊢
            intro x hx
            exact h x (List.mem_cons_of_mem _ (List.mem_cons_of_mem _ hx))
          · intro h
            apply ih4
            cases hx : noWarn (monitorRoundAux ext r rest (i + 1) s).2
            · rfl
            · exfalso
              apply absurd h
              rw [Bool.not_eq_false]
              unfold noWarn at hx ⊢
              rw [List.all_eq_true] at hx ⊢
              intro x hmem
              rcases List.mem_cons.mp hmem with h1 | hmem
              · subst h1
                rfl
              · rcases List.mem_cons.mp hmem with h2 | hmem
                · subst h2
                  rfl
                · exact hx x hmem
        · cases b
          · rw [roundAux_cons_g_false ext r i q rest s hext hsig hpr]
            have hu := handleShutdown_of_untriggered s SIGABRT hsig
            refine ⟨?_, ?_, ?_, ?_⟩
            · rw [goodTrace, if_neg (by simp [isWarnEvent])]
              exact goodTrace_of_coreFree _ (handleShutdown_coreFree s SIGABRT)
            · intro _
              rw [hu]
            · intro h
              exfalso
              unfold noWarn at h
              rw [List.all_cons] at h
              have h2 := (Bool.and_eq_true_iff.mp h).2
              have hnw := handleShutdown_noWarn_false s SIGABRT hsig
              unfold noWarn at hnw
              rw [h2] at hnw
              exact Bool.noConfusion hnw
            · intro _
              rw [hu]
              simp
          · rw [roundAux_cons_g_true ext r i q rest s hext hsig hpr]
            obtain ⟨ih1, ih2, ih3, ih4⟩ := ih (i + 1) s hinv
            refine ⟨?_, ih2, ?_, ?_⟩
            · rw [goodTrace, if_neg (by simp [isWarnEvent])]
              exact ih1
            · intro h
              apply ih3
              unfold noWarn at h ⊢
              rw [List.all_eq_true] at h ⊢
              intro x hx
              exact h x (List.mem_cons_of_mem _ hx)
            · intro h
              apply ih4
              cases hx : noWarn (monitorRoundAux ext r rest (i + 1) s).2
              · rfl
              · exfalso
                apply absurd h
                rw [Bool.not_eq_false]
                unfold noWarn at hx ⊢
                rw [List.all_eq_true] at hx ⊢
                intro x hmem
                rcases List.mem_cons.mp hmem with h1 | hmem
                · subst h1
                  rfl
                · exact hx x hmem
      · rw [roundAux_cons_ext ext r i q rest s sg hext hsig]
        have hu := handleShutdown_of_untriggered s sg hsig
        refine ⟨goodTrace_of_coreFree _ (handleShutdown_coreFree s sg), ?_, ?_, ?_⟩
        · intro _
          rw [hu]
        · intro h
          exfalso
          have hnw := handleShutdown_noWarn_false s sg hsig
          rw [h] at hnw
          exact Bool.noConfusion hnw
        · intro _
          rw [hu]
          simp
    · rw [roundAux_cons_break ext r i q rest s hsig]
      exact ⟨rfl, hinv, fun _ => rfl, fun _ => hsig⟩

/-- The polling loop's trace is good: after the trigger warning no probe is
evaluated and no wait blocks. -/
lemma monitorLoop_goodSpec (ext : Nat → Nat → Option Nat) :
    ∀ (fuel r : Nat) (s : WState),
      (s.signal ≠ none → s.sleeperSet = true) →
      goodTrace (monitorLoop ext fuel r s).2 = true := by
  intro fuel
  induction fuel with
  | zero =>
    intro r s hinv
    by_cases hsig : s.signal = none
    · rw [monitorLoop.eq_def]
      simp [hsig, goodTrace]
    · rw [monitorLoop_exit ext 0 r s hsig]
      rfl
  | succ fuel ih =>
    intro r s hinv
    by_cases hsig : s.signal = none
    · rcases hmc : s.monitorCallables with _ | probes
      · rw [monitorLoop.eq_def]
        simp [hsig, hmc, goodTrace]
      · rw [monitorLoop_cons ext fuel r s probes hsig hmc]
        obtain ⟨hg, hinv', hunch, hwon⟩ :=
          roundAux_goodSpec (ext r) r probes 0 s (fun h => absurd hsig h)
        apply goodTrace_append
        · apply goodTrace_append
          · exact hg
          · intro _
            exact goodTrace_of_noWarn _
              (sleeperWait_all (fun e => !isWarnEvent e) rfl _)
          · intro hnw
            have hsg := hwon hnw
            have hsl := hinv' hsg
            rw [sleeperWait_set _ hsl]
            rfl
        · intro hnw
          have hnr : noWarn (monitorRoundAux (ext r) r probes 0 s).2 = true := by
            unfold noWarn at hnw ⊢
            rw [List.all_append] at hnw
            exact (Bool.and_eq_true_iff.mp hnw).1
          rw [sleeperWait_fst, hunch hnr]
          exact ih (r + 1) s (fun h => absurd hsig h)
        · intro hnw
          have hcase : noWarn (monitorRoundAux (ext r) r probes 0 s).2 = false := by
            cases hx : noWarn (monitorRoundAux (ext r) r probes 0 s).2
            · rfl
            · exfalso
              apply absurd hnw
              rw [Bool.not_eq_false]
              unfold noWarn at hx ⊢
              rw [List.all_append, hx]
              rw [sleeperWait_all (fun e => !isWarnEvent e) rfl _]
              rfl
          have hsg := hwon hcase
          rw [sleeperWait_fst]
          rw [monitorLoop_exit ext fuel (r + 1) _ hsg]
          rfl
    · rw [monitorLoop_exit ext (fuel + 1) r s hsig]
      rfl

/-- C1: the claim asserts that for all interleavings of concurrent trigger
attempts the shutdown actions execute exactly once, with the recorded cause
equal to the winner of a single atomic NotTriggered → Triggered transition.
The code's check-then-set is not atomic: under the schedule in which both
contexts evaluate `self.__signal is None` before either stores (first
conjunct), both calls run to completion (`pc = 4`), the shutdown-callables
block executes twice (`shutdownRuns = 2`), and the recorded cause is the
monitor context's SIGABRT even though the signal-delivery context (cause
SIGTERM) passed the test first.  The second conjunct shows the contrast: a
serialised execution of the same two attempts runs the block exactly once
with the first attempt's cause recorded. -/
theorem handle_shutdown_race_double_run :
    runSched [true, false, true, true, true, false, false, false]
        { signal := none, sleeperSet := false, shutdownRuns := 0 }
        { cause := SIGTERM, pc := 0 } { cause := SIGABRT, pc := 0 } =
      ({ signal := some SIGABRT, sleeperSet := true, shutdownRuns := 2 },
       { cause := SIGTERM, pc := 4 }, { cause := SIGABRT, pc := 4 }) ∧
    runSched [true, true, true, true, false, false, false, false]
        { signal := none, sleeperSet := false, shutdownRuns := 0 }
        { cause := SIGTERM, pc := 0 } { cause := SIGABRT, pc := 0 } =
      ({ signal := some SIGTERM, sleeperSet := true, shutdownRuns := 1 },
       { cause := SIGTERM, pc := 4 }, { cause := SIGABRT, pc := 4 }) := by
  constructor <;> decide

/-- C2: once a cause is recorded, any further sequential call of
`__handle_shutdown` with any cause is a no-op — the state (hence the recorded
cause) is unchanged and no events (no shutdown-callable invocations, no logs)
are produced.  The second conjunct is the hypothesis-free lifecycle form: a
call made right after any other call is always a no-op, so the shutdown
callables run at most once, gated on the single none → some transition. -/
theorem trigger_inert_after_first (s : WState) (c c' : Nat) :
    (s.signal = some c → handleShutdown s c' = (s, [])) ∧
    handleShutdown (handleShutdown s c).1 c' = ((handleShutdown s c).1, []) := by
  constructor
  · intro h
    simp [handleShutdown, h]
  · exact handleShutdown_of_triggered _ c' (handleShutdown_signal_ne s c)

/-- C9: registering shutdown signals is idempotent per signal.  Registering
an already-present number changes nothing — neither the instance state nor
the process-wide handlers (no `installHandler` event) — while registering a
new number appends it exactly once (its count in the resulting list is 1)
and installs the process-wide handler for it. -/
theorem register_signals_idempotent (s : WState) (num : Nat) :
    (num ∈ s.shutdownSignals → registerShutdownSignals s [num] = (s, [])) ∧
    (num ∉ s.shutdownSignals →
      registerShutdownSignals s [num] =
        ({ s with shutdownSignals := s.shutdownSignals ++ [num] },
         [Event.installHandler num]) ∧
      (s.shutdownSignals ++ [num]).count num = 1) := by
  constructor
  · intro h
    simp [registerShutdownSignals, registerSignalsStep, h]
  · intro h
    refine ⟨by simp [registerShutdownSignals, registerSignalsStep, h], ?_⟩
    rw [List.count_append]
    rw [List.count_eq_zero.mpr h]
    simp

/-- Witness for C9: registering SIGTERM twice in a row — the second
registration is a no-op; the first added it once. -/
theorem register_signals_idempotent_witness :
    (SIGTERM ∈ ([SIGTERM] : List Nat) ∧
      registerShutdownSignals
          { monitorCallables := none, shutdownCallables := none, joinCallables := none,
            monitorDelay := 2, shutdownSignals := [SIGTERM], sleeperSet := false,
            signal := none } [SIGTERM] =
        ({ monitorCallables := none, shutdownCallables := none, joinCallables := none,
           monitorDelay := 2, shutdownSignals := [SIGTERM], sleeperSet := false,
           signal := none }, [])) ∧
    (SIGTERM ∉ ([] : List Nat) ∧
      registerShutdownSignals
          { monitorCallables := none, shutdownCallables := none, joinCallables := none,
            monitorDelay := 2, shutdownSignals := [], sleeperSet := false,
            signal := none } [SIGTERM] =
        ({ monitorCallables := none, shutdownCallables := none, joinCallables := none,
           monitorDelay := 2, shutdownSignals := [] ++ [SIGTERM], sleeperSet := false,
           signal := none }, [Event.installHandler SIGTERM]) ∧
      (([] : List Nat) ++ [SIGTERM]).count SIGTERM = 1) :=
  ⟨⟨by decide,
    (register_signals_idempotent
        { monitorCallables := none, shutdownCallables := none, joinCallables := none,
          monitorDelay := 2, shutdownSignals := [SIGTERM], sleeperSet := false,
          signal := none } SIGTERM).1 (by decide)⟩,
   ⟨by decide,
    (register_signals_idempotent
        { monitorCallables := none, shutdownCallables := none, joinCallables := none,
          monitorDelay := 2, shutdownSignals := [], sleeperSet := false,
          signal := none } SIGTERM).2 (by decide)⟩⟩

/-- C6 counterexample: the claim says the internal sentinel is never a member
of the caller-registered signal set, but `register_shutdown_signals` accepts
any numbers — a watchdog constructed with `shutdown_signals=[signal.SIGABRT]`
has the sentinel in its registered set. -/
theorem sentinel_registered_by_caller :
    SIGABRT ∈ (initWatchdog none none none (some [SIGABRT]) 2).1.shutdownSignals := by
  decide

/-- C6 (amended): the sentinel stays out of the registered set as long as the
caller does not pass SIGABRT itself (registration adds no number that was not
passed in), and the monitor loop's lazy first-entry registration guarantees
the sentinel is in the set afterwards — adding it only when absent. -/
theorem sentinel_membership (s : WState) (sigs : List Nat)
    (h1 : SIGABRT ∉ sigs) (h2 : SIGABRT ∉ s.shutdownSignals) :
    SIGABRT ∉ (registerShutdownSignals s sigs).1.shutdownSignals ∧
    SIGABRT ∈ (ensureSentinel s).1.shutdownSignals := by
  constructor
  · intro hmem
    rcases registerSignals_foldl_mem sigs (s, []) SIGABRT hmem with h | h
    · exact h2 h
    · exact h1 h
  · unfold ensureSentinel
    by_cases hm : SIGABRT ∈ s.shutdownSignals
    · rw [if_pos hm]
      exact hm
    · rw [if_neg hm]
      simp [registerShutdownSignals, registerSignalsStep, hm]

/-- Witness for C6 (amended), with SIGTERM and SIGINT (2) registered. -/
theorem sentinel_membership_witness :
    (SIGABRT ∉ ([SIGTERM, 2] : List Nat) ∧ SIGABRT ∉ ([] : List Nat)) ∧
    (SIGABRT ∉
        (registerShutdownSignals
            { monitorCallables := none, shutdownCallables := none, joinCallables := none,
              monitorDelay := 2, shutdownSignals := [], sleeperSet := false,
              signal := none } [SIGTERM, 2]).1.shutdownSignals ∧
      SIGABRT ∈
        (ensureSentinel
            { monitorCallables := none, shutdownCallables := none, joinCallables := none,
              monitorDelay := 2, shutdownSignals := [], sleeperSet := false,
              signal := none }).1.shutdownSignals) :=
  ⟨⟨by decide, by decide⟩,
   sentinel_membership
      { monitorCallables := none, shutdownCallables := none, joinCallables := none,
        monitorDelay := 2, shutdownSignals := [], sleeperSet := false,
        signal := none } [SIGTERM, 2] (by decide) (by decide)⟩

/-- C10: the join-callables argument defaults to `None` at construction and
is stored unchanged (even when signals are registered in the constructor),
and `join()` on a state whose join-callables are `None` raises `TypeError`
when it iterates them — so it produces no event trace at all and in
particular the `shutdown complete` log line is never emitted. -/
theorem join_none_raises (mc : Option (List Probe)) (sc : Option (List Act))
    (sg : Option (List Nat)) (d : Nat) (s : WState) (h : s.joinCallables = none) :
    (initWatchdog mc sc none sg d).1.joinCallables = none ∧
    join s = Except.error noneIterMsg := by
  constructor
  · unfold initWatchdog
    rcases sg with _ | sigs
    · rfl
    · by_cases he : sigs.isEmpty
      · simp [he]
      · simp only [he, if_false]
        exact (registerSignals_foldl_fields sigs _).2.2.1
  · simp [join, h]

/-- Witness for C10 on a concrete post-monitor state with no join callables. -/
theorem join_none_raises_witness :
    ({ monitorCallables := none, shutdownCallables := none, joinCallables := none,
       monitorDelay := 2, shutdownSignals := [SIGTERM, SIGABRT], sleeperSet := true,
       signal := some SIGABRT } : WState).joinCallables = none ∧
    (initWatchdog none none none (some [SIGTERM]) 2).1.joinCallables = none ∧
    join
        { monitorCallables := none, shutdownCallables := none, joinCallables := none,
          monitorDelay := 2, shutdownSignals := [SIGTERM, SIGABRT], sleeperSet := true,
          signal := some SIGABRT } =
      Except.error noneIterMsg :=
  ⟨rfl,
   (join_none_raises none none (some [SIGTERM]) 2
      { monitorCallables := none, shutdownCallables := none, joinCallables := none,
        monitorDelay := 2, shutdownSignals := [SIGTERM, SIGABRT], sleeperSet := true,
        signal := some SIGABRT } rfl).1,
   (join_none_raises none none (some [SIGTERM]) 2
      { monitorCallables := none, shutdownCallables := none, joinCallables := none,
        monitorDelay := 2, shutdownSignals := [SIGTERM, SIGABRT], sleeperSet := true,
        signal := some SIGABRT } rfl).2⟩

/-- C5: in each teardown phase, a raising action is caught and logged with
its identity (registration index) and message, all actions of the phase are
still invoked exactly once in registration order (the invocation indices of
the emitted trace are `0, …, n-1`), and nothing propagates to the caller:
the shutdown phase of `__handle_shutdown` produces a complete trace, and
`join` returns `Except.ok` with a complete trace. -/
theorem action_isolation (s : WState) (c : Nat) (fs : List Act) (k : Nat)
    (m : String) (hk : k < fs.length) (herr : fs.get ⟨k, hk⟩ = Except.error m) :
    (s.signal = none → s.shutdownCallables = some fs →
      Event.logErrShutdown k m ∈ (handleShutdown s c).2 ∧
      shutdownIdxOf (handleShutdown s c).2 = List.range fs.length) ∧
    (s.joinCallables = some fs →
      join s = Except.ok (s, joinTrace fs) ∧
      Event.logErrJoin k m ∈ joinTrace fs ∧
      joinIdxOf (joinTrace fs) = List.range fs.length) := by
  have hne : fs.isEmpty = false := by
    cases fs
    · exact absurd hk (by simp)
    · rfl
  have hmem0 : Event.logErrShutdown k m ∈
      runCallables Event.shutdownAction Event.logErrShutdown fs 0 := by
    have := runCallables_err_mem Event.shutdownAction Event.logErrShutdown fs 0 k m hk herr
    simpa using this
  have hjmem0 : Event.logErrJoin k m ∈
      runCallables Event.joinAction Event.logErrJoin fs 0 := by
    have := runCallables_err_mem Event.joinAction Event.logErrJoin fs 0 k m hk herr
    simpa using this
  constructor
  · intro h hsc
    constructor
    · simp only [handleShutdown, h, if_pos, hsc, hne]
      simp [hmem0]
    · simp only [handleShutdown, h, if_pos, hsc, hne]
      simp only [if_false, Bool.false_eq_true]
      unfold shutdownIdxOf
      rw [List.filterMap_cons, List.filterMap_cons]
      simp only []
      rw [filterMap_runCallables _ Event.shutdownAction Event.logErrShutdown
            (fun j => rfl) (fun j m' => rfl) fs 0]
      exact (List.range_eq_range' fs.length).symm
  · intro hjc
    refine ⟨by simp [join, hjc], ?_, ?_⟩
    · unfold joinTrace
      exact List.mem_append.mpr (Or.inl hjmem0)
    · unfold joinTrace joinIdxOf
      rw [List.filterMap_append]
      rw [filterMap_runCallables _ Event.joinAction Event.logErrJoin
            (fun j => rfl) (fun j m' => rfl) fs 0]
      simp [List.range_eq_range']

/-- Witness for C5: three callables, the middle one raising `boom` — both
phases log the failure at index 1 and still invoke indices 0, 1, 2. -/
theorem action_isolation_witness :
    sBoom.signal = none ∧ sBoom.shutdownCallables = some actsBoom ∧
    sBoom.joinCallables = some actsBoom ∧
    Event.logErrShutdown 1 boomMsg ∈ (handleShutdown sBoom SIGTERM).2 ∧
    shutdownIdxOf (handleShutdown sBoom SIGTERM).2 = List.range actsBoom.length ∧
    join sBoom = Except.ok (sBoom, joinTrace actsBoom) ∧
    Event.logErrJoin 1 boomMsg ∈ joinTrace actsBoom ∧
    joinIdxOf (joinTrace actsBoom) = List.range actsBoom.length := by
  have h := action_isolation sBoom SIGTERM actsBoom 1 boomMsg (by decide) rfl
  exact ⟨rfl, rfl, rfl, (h.1 rfl rfl).1, (h.1 rfl rfl).2, (h.2 rfl).1,
         (h.2 rfl).2.1, (h.2 rfl).2.2⟩

/-- C3: in a single polling round (with no mid-round external arrival), if
the probe at position `pre.length` (0-based, i.e. probe `pre.length + 1` in
the claim's 1-indexed registration order) reports unhealthy while no earlier
probe of the round does, the shutdown trigger fires with the internal
SIGABRT sentinel recorded as the cause, and no probe at a position beyond it
is invoked in that round. -/
theorem probe_short_circuit (s : WState) (pre post : List Probe) (pk : Probe)
    (r : Nat) (hs : s.signal = none)
    (hpre : ∀ p ∈ pre, p r ≠ Except.ok false)
    (hk : pk r = Except.ok false) :
    (monitorRoundAux extNone r (pre ++ pk :: post) 0 s).1.signal = some SIGABRT ∧
    ∀ r' j, Event.probeCall r' j ∈ (monitorRoundAux extNone r (pre ++ pk :: post) 0 s).2 →
      j ≤ pre.length := by
  obtain ⟨h1, h2⟩ := roundAux_short_circuit r pre post pk 0 s hs hpre hk
  refine ⟨h1, fun r' j hmem => ?_⟩
  have := h2 r' j hmem
  omega

/-- Witness for C3: probes healthy, unhealthy, healthy — the trigger fires
with the sentinel and no probe beyond index 1 is invoked. -/
theorem probe_short_circuit_witness :
    sMon3.signal = none ∧ probeFalse 0 = Except.ok false ∧
    (monitorRoundAux extNone 0 ([probeTrue] ++ probeFalse :: [probeTrue]) 0 sMon3).1.signal =
      some SIGABRT ∧
    ∀ r' j, Event.probeCall r' j ∈
        (monitorRoundAux extNone 0 ([probeTrue] ++ probeFalse :: [probeTrue]) 0 sMon3).2 →
      j ≤ [probeTrue].length := by
  have h := probe_short_circuit sMon3 [probeTrue] [probeTrue] probeFalse 0 rfl
    (by
      intro p hp
      simp only [List.mem_singleton] at hp
      subst hp
      simp [probeTrue])
    rfl
  exact ⟨rfl, rfl, h.1, h.2⟩

/-- C4: a probe that raises during a round is logged with its identity and
message, the instance state is unchanged (in particular the shutdown trigger
does NOT fire — only a probe that returns unhealthy triggers it), every
probe of the round is still invoked, and, the loop condition still holding,
the loop invokes the first probe again in the following round. -/
theorem probe_fault_isolated (probes : List Probe) (r j fuel : Nat) (m : String)
    (s : WState) (hs : s.signal = none)
    (hnf : ∀ p ∈ probes, p r ≠ Except.ok false)
    (hj : j < probes.length)
    (herr : probes.get ⟨j, hj⟩ r = Except.error m) :
    (monitorRoundAux extNone r probes 0 s).1 = s ∧
    Event.logErrMonitor j m ∈ (monitorRoundAux extNone r probes 0 s).2 ∧
    (∀ i, i < probes.length →
      Event.probeCall r i ∈ (monitorRoundAux extNone r probes 0 s).2) ∧
    (∀ p rest2, probes = p :: rest2 → s.monitorCallables = some probes →
      Event.probeCall (r + 1) 0 ∈ (monitorLoop extNone2 (fuel + 1 + 1) r s).2) := by
  obtain ⟨h1, h2, h3⟩ := roundAux_no_trigger r probes 0 s hs hnf
  refine ⟨h1, ?_, ?_, ?_⟩
  · have := h3 j hj m herr
    simpa using this
  · intro i hi
    have := h2 i hi
    simpa using this
  · intro p rest2 hp hmc
    subst hp
    have hre : extNone2 r = extNone := rfl
    have hre1 : extNone2 (r + 1) = extNone := rfl
    rw [monitorLoop_cons extNone2 (fuel + 1) r s (p :: rest2) hs hmc]
    rw [hre, h1, sleeperWait_fst s]
    rw [monitorLoop_cons extNone2 fuel (r + 1) s (p :: rest2) hs hmc]
    rw [hre1]
    have hmem := roundAux_head_probe (r + 1) p rest2 0 s hs
    simp only [List.mem_append]
    tauto

/-- Witness for C4: probes healthy, raising, healthy — the fault at index 1
is logged, the trigger does not fire, all three probes run in round 0, and
probe 0 runs again in round 1. -/
theorem probe_fault_isolated_witness :
    sMon4.signal = none ∧
    sMon4.monitorCallables = some [probeTrue, probeBoom, probeTrue] ∧
    (monitorRoundAux extNone 0 [probeTrue, probeBoom, probeTrue] 0 sMon4).1 = sMon4 ∧
    Event.logErrMonitor 1 boomMsg ∈
      (monitorRoundAux extNone 0 [probeTrue, probeBoom, probeTrue] 0 sMon4).2 ∧
    (∀ i, i < 3 →
      Event.probeCall 0 i ∈
        (monitorRoundAux extNone 0 [probeTrue, probeBoom, probeTrue] 0 sMon4).2) ∧
    Event.probeCall 1 0 ∈ (monitorLoop extNone2 2 0 sMon4).2 := by
  have h := probe_fault_isolated [probeTrue, probeBoom, probeTrue] 0 1 0 boomMsg sMon4 rfl
    (by
      intro p hp
      simp only [List.mem_cons, List.not_mem_nil, or_false] at hp
      rcases hp with h | h | h <;> subst h <;> simp [probeTrue, probeBoom])
    (by decide) rfl
  exact ⟨rfl, rfl, h.1, h.2.1, h.2.2.1,
         h.2.2.2 probeTrue [probeBoom, probeTrue] rfl rfl⟩

/-- C7: `join` runs on the state the exited monitor thread left behind
(`self.__thread.join()` precedes everything else in it), so in the combined
run `evs1 ++ joinTrace fs` every join-phase event comes strictly after the
monitor thread's exit: the monitor trace ends with the `loopExit` marker and
contains no join-callable invocation.  The join callables then run exactly
once each, in registration order, followed by the `shutdown complete` log as
the final event; `join` leaves the state — in particular the trigger —
unchanged and emits no trigger warning. -/
theorem join_ordering (ext : Nat → Nat → Option Nat) (fuel : Nat)
    (s s1 : WState) (evs1 : List Event) (fs : List Act)
    (hmon : monitor ext fuel s = (LoopRes.exited s1, evs1))
    (hjc : s1.joinCallables = some fs) :
    join s1 = Except.ok (s1, joinTrace fs) ∧
    evs1.getLast? = some Event.loopExit ∧
    (∀ i, Event.joinAction i ∉ evs1) ∧
    joinIdxOf (joinTrace fs) = List.range fs.length ∧
    (joinTrace fs).getLast? = some Event.logShutdownComplete ∧
    (∀ c, Event.logWarnCaught c ∉ joinTrace fs) := by
  refine ⟨by simp [join, hjc], monitor_exited_last ext fuel s s1 evs1 hmon, ?_, ?_, ?_, ?_⟩
  · intro i hmem
    have hall := monitor_all isMonitorEvent (fun r i => rfl) (fun i m => rfl)
      (fun c => rfl) rfl (fun j => rfl) (fun j m => rfl) rfl (fun n => rfl) rfl
      ext fuel s
    rw [hmon] at hall
    have := List.all_eq_true.mp hall _ hmem
    simp [isMonitorEvent] at this
  · unfold joinIdxOf joinTrace
    rw [List.filterMap_append]
    rw [filterMap_runCallables _ Event.joinAction Event.logErrJoin
          (fun j => rfl) (fun j m => rfl) fs 0]
    simp [List.range_eq_range']
  · unfold joinTrace
    exact List.getLast?_concat _
  · intro c
    exact noWarn_not_mem (joinTrace_noWarn fs) c

/-- Witness for C7: a watchdog already triggered with SIGTERM, sleeper set;
the monitor thread exits at once and `join` runs the three join callables. -/
theorem join_ordering_witness :
    monitor extNone2 0 sTrig = (LoopRes.exited sTrig, [Event.loopExit]) ∧
    sTrig.joinCallables = some actsBoom ∧
    (join sTrig = Except.ok (sTrig, joinTrace actsBoom) ∧
     ([Event.loopExit] : List Event).getLast? = some Event.loopExit ∧
     (∀ i, Event.joinAction i ∉ ([Event.loopExit] : List Event)) ∧
     joinIdxOf (joinTrace actsBoom) = List.range actsBoom.length ∧
     (joinTrace actsBoom).getLast? = some Event.logShutdownComplete ∧
     (∀ c, Event.logWarnCaught c ∉ joinTrace actsBoom)) :=
  ⟨rfl, rfl, join_ordering extNone2 0 sTrig sTrig [Event.loopExit] actsBoom rfl rfl⟩

/-- C8: the monitor thread's whole trace is good — after the trigger-winning
warning (emitted exactly when the `NotTriggered → Triggered` transition is
won, from either context) no probe is ever evaluated again and no wait ever
blocks again: the `__handle_shutdown` winner sets the level-triggered sleeper
together with the cause, so every later `self.__sleeper.wait` returns
immediately and the `while self.__signal is None` loop falls through.  The
second conjunct is the permanent exit itself: a loop entered with a cause
recorded exits at once, with no events, whatever the iteration bound.  The
hypothesis is the handler invariant — a recorded cause comes with a set
sleeper — which every reachable state satisfies. -/
theorem loop_exit_permanent (ext : Nat → Nat → Option Nat) (fuel : Nat) (s : WState)
    (hinv : s.signal ≠ none → s.sleeperSet = true) :
    goodTrace (monitor ext fuel s).2 = true ∧
    ∀ r s2, s2.signal ≠ none → monitorLoop ext fuel r s2 = (LoopRes.exited s2, []) := by
  constructor
  · unfold monitor
    simp only [sleeperWait_fst]
    by_cases hs0 : s.signal = none
    · rw [if_pos hs0]
      rcases hlp : monitorLoop ext fuel 0 (ensureSentinel s).1 with ⟨res, lpevs⟩
      have hinv2 : (ensureSentinel s).1.signal ≠ none →
          (ensureSentinel s).1.sleeperSet = true := by
        intro hne
        rw [(ensureSentinel_fields s).1] at hne
        exact absurd hs0 hne
      have hlpg : goodTrace lpevs = true := by
        have h := monitorLoop_goodSpec ext fuel 0 (ensureSentinel s).1 hinv2
        rw [hlp] at h
        exact h
      have hnwa : noWarn ((sleeperWait s).2 ++ (ensureSentinel s).2) = true := by
        unfold noWarn
        rw [List.all_append]
        rw [sleeperWait_all (fun e => !isWarnEvent e) rfl s]
        rw [ensureSentinel_all (fun e => !isWarnEvent e) (fun n => rfl) s]
        rfl
      have hmid : goodTrace ((sleeperWait s).2 ++ (ensureSentinel s).2 ++ lpevs) = true := by
        apply goodTrace_append
        · exact goodTrace_of_noWarn _ hnwa
        · intro _
          exact hlpg
        · intro hf
          exact absurd (hnwa.symm.trans hf) (fun hc => Bool.noConfusion hc)
      rcases res with s2 | s2 | m
      · simp only [hlp]
        apply goodTrace_append _ _ hmid
        · intro _
          rfl
        · intro _
          rfl
      · simp only [hlp]
        exact hmid
      · simp only [hlp]
        exact hmid
    · rw [if_neg hs0]
      rw [sleeperWait_set s (hinv hs0)]
      rfl
  · intro r s2 h
    exact monitorLoop_exit ext fuel r s2 h

/-- Witness for C8 on a concrete untriggered watchdog whose second probe
reports unhealthy: a full monitor run's trace is good, and the permanent
exit holds for any triggered state. -/
theorem loop_exit_permanent_witness :
    (sMon3.signal ≠ none → sMon3.sleeperSet = true) ∧
    goodTrace (monitor extNone2 3 sMon3).2 = true ∧
    (∀ r s2, s2.signal ≠ none →
      monitorLoop extNone2 3 r s2 = (LoopRes.exited s2, [])) :=
  ⟨fun h => absurd rfl h,
   (loop_exit_permanent extNone2 3 sMon3 (fun h => absurd rfl h)).1,
   (loop_exit_permanent extNone2 3 sMon3 (fun h => absurd rfl h)).2⟩

/-- Witness for C2 at a concrete triggered state. -/
theorem trigger_inert_after_first_witness :
    ({ monitorCallables := none, shutdownCallables := none, joinCallables := none,
       monitorDelay := 2, shutdownSignals := [SIGTERM], sleeperSet := true,
       signal := some SIGTERM } : WState).signal = some SIGTERM ∧
    handleShutdown
        { monitorCallables := none, shutdownCallables := none, joinCallables := none,
          monitorDelay := 2, shutdownSignals := [SIGTERM], sleeperSet := true,
          signal := some SIGTERM } SIGABRT =
      ({ monitorCallables := none, shutdownCallables := none, joinCallables := none,
         monitorDelay := 2, shutdownSignals := [SIGTERM], sleeperSet := true,
         signal := some SIGTERM }, []) :=
  ⟨rfl,
   (trigger_inert_after_first
      { monitorCallables := none, shutdownCallables := none, joinCallables := none,
        monitorDelay := 2, shutdownSignals := [SIGTERM], sleeperSet := true,
        signal := some SIGTERM } SIGTERM SIGABRT).1 rfl⟩

end CncrWdg
